import Mathlib

/-!
A shallow embedding of the Windows service manager core (`manager.go`,
`wrapper.go` and the service status cache) as executable Lean
definitions, together with theorems settling the specification's claims.

Modelling conventions: time is integral milliseconds; every interaction
with the operating system (SCM calls, registry writes, process spawning)
is an explicit oracle input recording the outcome of the corresponding
call the Go code makes; Go maps are association lists with unique keys
maintained by an insert-or-replace helper.
-/

/-- The OS service-state enumeration (`svc.State` from
`golang.org/x/sys/windows/svc`). -/
inductive OsState where
  | stopped
  | startPending
  | stopPending
  | running
  | continuePending
  | pausePending
  | paused
deriving DecidableEq, Repr

/-- The `Service` record from `app.go`: one managed service. -/
structure Service where
  ID : String
  Name : String
  ExePath : String
  Args : String
  WorkingDir : String
  Status : String
  PID : Nat
  AutoStart : Bool
  CreatedAt : Nat
  UpdatedAt : Nat
deriving DecidableEq, Repr

/-- The `ServiceConfig` creation input from `app.go`. -/
structure ServiceConfig where
  Name : String
  ExePath : String
  Args : String
  WorkingDir : String
deriving DecidableEq, Repr

/-- `CachedServiceStatus` from the status-cache source file. -/
structure CachedServiceStatus where
  Status : String
  PID : Nat
  Timestamp : Nat
deriving DecidableEq, Repr

/-- `ServiceStatusCache`: the Go `map[string]*CachedServiceStatus` is
modelled as an association list with unique keys. -/
structure ServiceStatusCache where
  cache : List (String × CachedServiceStatus)
  ttl : Nat
deriving DecidableEq, Repr

/-- Insert-or-replace on an association list; models assignment into a
Go map. -/
def setEntry {α : Type} : List (String × α) → String → α → List (String × α)
  | [], k, v => [(k, v)]
  | (k0, v0) :: rest, k, v =>
    if k0 = k then (k, v) :: rest else (k0, v0) :: setEntry rest k v

/-- `NewServiceStatusCache`: empty cache with the fixed 5-second
(5000 ms) time-to-live. -/
def NewServiceStatusCache : ServiceStatusCache := { cache := [], ttl := 5000 }

namespace ServiceStatusCache

/-- `ServiceStatusCache.Get`: lookup, returning nothing when the key is
absent or the entry's age exceeds the time-to-live (read-time lazy
expiration; the entry itself is not deleted). -/
def Get (c : ServiceStatusCache) (serviceName : String) (now : Nat) :
    Option CachedServiceStatus :=
  match c.cache.lookup serviceName with
  | none => none
  | some status => if now - status.Timestamp > c.ttl then none else some status

/-- `ServiceStatusCache.Set`: overwrite the entry with the current
time as its timestamp. -/
def Set (c : ServiceStatusCache) (serviceName status : String) (pid now : Nat) :
    ServiceStatusCache :=
  let entry : CachedServiceStatus := { Status := status, PID := pid, Timestamp := now }
  { c with cache := setEntry c.cache serviceName entry }

/-- `ServiceStatusCache.Remove`: delete the entry immediately. -/
def Remove (c : ServiceStatusCache) (serviceName : String) : ServiceStatusCache :=
  { c with cache := c.cache.filter (fun e => decide (e.fst ≠ serviceName)) }

/-- `ServiceStatusCache.Clear`: wipe every entry. -/
def Clear (c : ServiceStatusCache) : ServiceStatusCache := { c with cache := [] }

/-- `ServiceStatusCache.CleanExpired`: physically delete exactly the
entries whose age strictly exceeds the time-to-live (the source keeps an
entry iff `now.Sub(Timestamp) > ttl` is false). -/
def CleanExpired (c : ServiceStatusCache) (now : Nat) : ServiceStatusCache :=
  { c with cache := c.cache.filter (fun e => decide (now - e.snd.Timestamp ≤ c.ttl)) }

end ServiceStatusCache

/-- Result of the `waitForServiceState` polling loop in `manager.go`. -/
inductive WaitResult where
  | ok
  | queryFailed
  | startFailed
  | timedOut
deriving DecidableEq, Repr

/-- The body of `waitForServiceState`, fuel-indexed: `fuel` is the number
of polls remaining before the deadline, `elapsed` the time in ms at which
the current poll happens, `polls t` the OS-reported state at time `t`
(`none` models a failed query).  Each iteration queries, returns on the
target state, fails distinctly when `stopped` is seen while waiting for
`running`, and otherwise sleeps 500 ms. -/
def waitFrom (target : OsState) (polls : Nat → Option OsState)
    (elapsed : Nat) (fuel : Nat) : WaitResult :=
  match fuel with
  | 0 => .timedOut
  | fuel + 1 =>
    match polls elapsed with
    | none => .queryFailed
    | some st =>
      if st = target then .ok
      else if target = .running ∧ st = .stopped then .startFailed
      else waitFrom target polls (elapsed + 500) fuel

/-- `waitForServiceState` from `manager.go`: poll every 500 ms from time
0 until the deadline `timeoutMs`; the number of polls that fit before the
deadline is `(timeoutMs + 499) / 500` (60 polls for the 30-second
timeout the manager always passes). -/
def waitForServiceState (target : OsState) (polls : Nat → Option OsState)
    (timeoutMs : Nat) : WaitResult :=
  waitFrom target polls 0 ((timeoutMs + 499) / 500)

/-- Literal transcription of the source loop's deadline test
(`for time.Now().Before(deadline)`), recursing on the remaining time;
proven below to coincide with the fuel-indexed `waitFrom`. -/
def waitForStateTimed (target : OsState) (polls : Nat → Option OsState)
    (elapsed timeout : Nat) : WaitResult :=
  if elapsed < timeout then
    match polls elapsed with
    | none => .queryFailed
    | some st =>
      if st = target then .ok
      else if target = .running ∧ st = .stopped then .startFailed
      else waitForStateTimed target polls (elapsed + 500) timeout
  else .timedOut
termination_by timeout - elapsed
decreasing_by omega

/-- The time-based transcription of the polling loop and the fuel-indexed
version used operationally agree everywhere. -/
theorem waitForStateTimed_eq_waitFrom (target : OsState)
    (polls : Nat → Option OsState) :
    ∀ timeout elapsed, waitForStateTimed target polls elapsed timeout =
      waitFrom target polls elapsed ((timeout - elapsed + 499) / 500) := by
  intro timeout
  have main : ∀ d elapsed, timeout - elapsed ≤ d →
      waitForStateTimed target polls elapsed timeout =
        waitFrom target polls elapsed ((timeout - elapsed + 499) / 500) := by
    intro d
    induction d with
    | zero =>
      intro elapsed h
      have hge : ¬ elapsed < timeout := by omega
      have hfuel : (timeout - elapsed + 499) / 500 = 0 := by omega
      rw [waitForStateTimed, if_neg hge, hfuel]
      rfl
    | succ n ih =>
      intro elapsed h
      by_cases hlt : elapsed < timeout
      · have hfuel : (timeout - elapsed + 499) / 500 =
            (timeout - (elapsed + 500) + 499) / 500 + 1 := by omega
        rw [waitForStateTimed, if_pos hlt, hfuel]
        show _ = waitFrom target polls elapsed (_ + 1)
        rw [waitFrom]
        cases polls elapsed with
        | none => rfl
        | some st =>
          by_cases h1 : st = target
          · simp [h1]
          · by_cases h2 : target = .running ∧ st = .stopped
            · simp [h1, h2]
            · simp only [h1, h2, if_false]
              exact ih (elapsed + 500) (by omega)
      · have hge : ¬ elapsed < timeout := hlt
        have hfuel : (timeout - elapsed + 499) / 500 = 0 := by omega
        rw [waitForStateTimed, if_neg hge, hfuel]
        rfl
  intro elapsed
  exact main (timeout - elapsed) elapsed (Nat.le_refl _)

/-- The `switch status.State` mapping inside `getServiceRealTimeStatus`:
OS state and observed process id to the manager's status vocabulary.
The last three cases are the switch's `default` branch. -/
def statusFromOsState : OsState → Nat → String × Nat
  | .running, processId => ("running", processId)
  | .stopped, _ => ("stopped", 0)
  | .startPending, _ => ("starting", 0)
  | .stopPending, processId => ("stopping", processId)
  | .continuePending, _ => ("error", 0)
  | .pausePending, _ => ("error", 0)
  | .paused, _ => ("error", 0)

/-- `getServiceRealTimeStatus` from `manager.go`: consult the cache
first; on a miss, `openOk` is the outcome of `scm.OpenService` and
`queryResult` the outcome of `Query` (`none` = error).  Failures yield
`("error", 0)`; every fresh result is written back to the cache.
Returns the `(status, pid)` pair and the updated cache. -/
def getServiceRealTimeStatus (c : ServiceStatusCache) (serviceName : String)
    (now : Nat) (openOk : Bool) (queryResult : Option (OsState × Nat)) :
    (String × Nat) × ServiceStatusCache :=
  match c.Get serviceName now with
  | some cached => ((cached.Status, cached.PID), c)
  | none =>
    if openOk then
      match queryResult with
      | none => (("error", 0), c.Set serviceName "error" 0 now)
      | some (st, processId) =>
        let sp := statusFromOsState st processId
        (sp, c.Set serviceName sp.fst sp.snd now)
    else (("error", 0), c.Set serviceName "error" 0 now)

/-- `GetServices` from `manager.go`, specialised to its per-record
effect: refresh every registered record's status and pid from
`getServiceRealTimeStatus` (threading the cache through), bump
`UpdatedAt`, and return the records.  `oracle id` gives the
open/query outcome for service `id`. -/
def GetServices (services : List Service)
    (oracle : String → Bool × Option (OsState × Nat))
    (c : ServiceStatusCache) (now : Nat) : List Service × ServiceStatusCache :=
  match services with
  | [] => ([], c)
  | service :: rest =>
    let o := oracle service.ID
    let r := getServiceRealTimeStatus c service.ID now o.fst o.snd
    let tail := GetServices rest oracle r.snd now
    ({ service with Status := r.fst.fst, PID := r.fst.snd, UpdatedAt := now } :: tail.fst,
      tail.snd)

/-- Outcomes of the individual OS calls `StartService` / `StopService`
perform, in source order: `OpenService`, the initial `Query`, `Start`,
`Control(svc.Stop)`, the polls of `waitForServiceState`, and the final
`Query` whose error is ignored (`status, _ = windowsService.Query()`). -/
structure OsServiceOracle where
  openOk : Bool
  queryResult : Option (OsState × Nat)
  startOk : Bool
  controlOk : Bool
  waitPolls : Nat → Option OsState
  finalQuery : OsState × Nat

/-- Error taxonomy: one constructor per distinct error-return site of the
manager operations modelled here. -/
inductive SvcErr where
  | openFailed
  | queryFailed
  | alreadyRunning
  | startFailed
  | stopControlFailed
  | waitQueryFailed
  | waitStartFailed
  | waitTimeout
  | exeNotFound
  | nameExists
  | scmCreateFailed
  | wrapperFailed
  | imagePathFailed
deriving DecidableEq, Repr

/-- Map a failed `waitForServiceState` outcome to the error the caller
propagates (`WaitResult.ok` never reaches this map in the callers). -/
def waitErrCode : WaitResult → SvcErr
  | .ok => .waitTimeout
  | .queryFailed => .waitQueryFailed
  | .startFailed => .waitStartFailed
  | .timedOut => .waitTimeout

/-- Result of `StartService`: the returned error (`none` = success), the
service record after the call, whether a start request was issued to the
OS, the cache after the call, and the emitted
`service-status-changed` events `(serviceId, status, pid)`. -/
structure StartOutcome where
  result : Option SvcErr
  record : Service
  startIssued : Bool
  cacheOut : ServiceStatusCache
  emitted : List (String × String × Nat)
deriving DecidableEq, Repr

/-- `StartService` from `manager.go`, acting on the given registered
record.  Open, query; fail with `alreadyRunning` when the OS state is
`running`; otherwise issue the start, wait for `running` (30 s); on wait
failure set the record's status to `"error"` (its `PID` field is left
untouched by the source); on success set `"running"` with the final
query's process id, update the cache, and emit the status event. -/
def StartService (service : Service) (os : OsServiceOracle)
    (c : ServiceStatusCache) (now : Nat) : StartOutcome :=
  if os.openOk then
    match os.queryResult with
    | none => { result := some .queryFailed, record := service, startIssued := false,
                cacheOut := c, emitted := [] }
    | some (st, _) =>
      if st = .running then
        { result := some .alreadyRunning, record := service, startIssued := false,
          cacheOut := c, emitted := [] }
      else if os.startOk then
        match waitForServiceState .running os.waitPolls 30000 with
        | .ok =>
          let processId := os.finalQuery.snd
          let updated := { service with Status := "running", PID := processId, UpdatedAt := now }
          { result := none,
            record := updated,
            startIssued := true,
            cacheOut := c.Set service.ID "running" processId now,
            emitted := [(service.ID, "running", processId)] }
        | w =>
          { result := some (waitErrCode w),
            record := { service with Status := "error", UpdatedAt := now },
            startIssued := true, cacheOut := c, emitted := [] }
      else
        { result := some .startFailed, record := service, startIssued := true,
          cacheOut := c, emitted := [] }
  else
    { result := some .openFailed, record := service, startIssued := false,
      cacheOut := c, emitted := [] }

/-- Result of `StopService`, mirroring `StartOutcome`; `controlSent`
records whether a stop control request was sent to the OS. -/
structure StopOutcome where
  result : Option SvcErr
  record : Service
  controlSent : Bool
  cacheOut : ServiceStatusCache
  emitted : List (String × String × Nat)
deriving DecidableEq, Repr

/-- `StopService` from `manager.go`, acting on the given registered
record.  Open, query; when the OS already reports `stopped`, succeed
without sending a control, refreshing the record to
`stopped / pid 0 / UpdatedAt now`; otherwise send the stop control, wait
for `stopped` (30 s); on success refresh the record the same way, update
the cache and emit the event; on wait failure return the error with the
record untouched. -/
def StopService (service : Service) (os : OsServiceOracle)
    (c : ServiceStatusCache) (now : Nat) : StopOutcome :=
  if os.openOk then
    match os.queryResult with
    | none => { result := some .queryFailed, record := service, controlSent := false,
                cacheOut := c, emitted := [] }
    | some (st, _) =>
      if st = .stopped then
        { result := none,
          record := { service with Status := "stopped", PID := 0, UpdatedAt := now },
          controlSent := false, cacheOut := c, emitted := [] }
      else if os.controlOk then
        match waitForServiceState .stopped os.waitPolls 30000 with
        | .ok =>
          { result := none,
            record := { service with Status := "stopped", PID := 0, UpdatedAt := now },
            controlSent := true, cacheOut := c.Set service.ID "stopped" 0 now,
            emitted := [(service.ID, "stopped", 0)] }
        | w =>
          { result := some (waitErrCode w), record := service, controlSent := true,
            cacheOut := c, emitted := [] }
      else
        { result := some .stopControlFailed, record := service, controlSent := true,
          cacheOut := c, emitted := [] }
  else
    { result := some .openFailed, record := service, controlSent := false,
      cacheOut := c, emitted := [] }

/-- The character sanitizer inside `generateServiceName`: letters and
digits pass through, everything else becomes an underscore. -/
def sanitizeServiceNameChar (r : Char) : Char :=
  if ('a' ≤ r ∧ r ≤ 'z') ∨ ('A' ≤ r ∧ r ≤ 'Z') ∨ ('0' ≤ r ∧ r ≤ '9') then r
  else '_'

/-- `generateServiceName` from `manager.go`: sanitized display name
between the `WSM_` marker and the creation Unix timestamp. -/
def generateServiceName (displayName : String) (unixTime : Nat) : String :=
  "WSM_" ++ displayName.map sanitizeServiceNameChar ++ "_" ++ toString unixTime

/-- Whether a character is a path separator. -/
def isPathSeparator (c : Char) : Bool := c = '\\' || c = '/'

/-- Simplified model of Go `filepath.Dir`: the text before the final path
separator (`"."` when there is none, the separator itself when it is the
only prefix).  Go's path cleaning and volume-root normalization are
elided; no claim depends on them. -/
def filepathDir (path : String) : String :=
  match path.toList.reverse.dropWhile (fun c => !isPathSeparator c) with
  | [] => "."
  | [c] => String.mk [c]
  | _ :: rest => String.mk rest.reverse

/-- The working-directory default in `CreateService`: when the config
leaves it empty, use the target executable's own directory. -/
def resolveWorkingDir (config : ServiceConfig) : String :=
  if config.WorkingDir = "" then filepathDir config.ExePath else config.WorkingDir

/-- The OS start-type field of an OS service entry (`mgr.StartAutomatic`
and friends). -/
inductive StartType where
  | automatic
  | manual
  | disabled
deriving DecidableEq, Repr

/-- The parts of the `mgr.Config` that `CreateService` passes to
`scm.CreateService`. -/
structure MgrConfig where
  startType : StartType
  displayName : String
  description : String
deriving DecidableEq, Repr

/-- Outcomes of the individual OS/registry calls `CreateService`
performs, in source order: the `os.Stat` existence check of the target
executable, `scm.CreateService`, `os.Executable` inside
`createServiceWrapper`, the three registry writes of
`storeServiceConfigInRegistry`, the `ImagePath` write, and the
working-directory registry write (whose failure only warns). -/
structure CreateOracle where
  exeExists : Bool
  scmCreateOk : Bool
  currentExeOk : Bool
  storeExePathOk : Bool
  storeArgsOk : Bool
  storeWorkingDirOk : Bool
  setImagePathOk : Bool
  setWorkDirOk : Bool
deriving DecidableEq, Repr

/-- Success of `storeServiceConfigInRegistry`: the `ExePath` write must
succeed, the `Args` and `WorkingDir` writes only happen (and so can only
fail) when the corresponding string is non-empty. -/
def storeServiceConfigOk (o : CreateOracle) (args workingDir : String) : Bool :=
  o.storeExePathOk
    && (if args = "" then true else o.storeArgsOk)
    && (if workingDir = "" then true else o.storeWorkingDirOk)

/-- Success of `createServiceWrapper`: resolving the current executable
and storing the side-channel configuration both succeed. -/
def createServiceWrapperOk (o : CreateOracle) (args workingDir : String) : Bool :=
  o.currentExeOk && storeServiceConfigOk o args workingDir

/-- Result of `CreateService`: the returned error (`none` = success),
the created record, the `mgr.Config` passed to `scm.CreateService` (when
that call was reached), whether the OS entry was created and whether the
rollback `windowsService.Delete()` ran, the registry map after the call,
and the delay (ms) of the detached automatic-start task when scheduled. -/
structure CreateOutcome where
  result : Option SvcErr
  service : Option Service
  usedConfig : Option MgrConfig
  osServiceCreated : Bool
  osServiceDeleted : Bool
  registryAfter : List (String × Service)
  scheduledStartDelayMs : Option Nat
deriving DecidableEq, Repr

/-- `CreateService` from `manager.go`: validate the executable, generate
the service name, reject a duplicate, default the working directory,
register the OS entry with automatic start type; on a wrapper-setup or
image-path failure delete the just-created OS entry and return the error
without touching the registry; on success store the record
(`Status "stopped"`, `PID 0`, `AutoStart false`) and schedule the
detached automatic start one second (1000 ms) later. -/
def CreateService (registryMap : List (String × Service)) (config : ServiceConfig)
    (o : CreateOracle) (now unixTime : Nat) : CreateOutcome :=
  if o.exeExists then
    let serviceName := generateServiceName config.Name unixTime
    if (registryMap.lookup serviceName).isSome then
      { result := some .nameExists, service := none, usedConfig := none,
        osServiceCreated := false, osServiceDeleted := false,
        registryAfter := registryMap, scheduledStartDelayMs := none }
    else
      let workingDir := resolveWorkingDir config
      let cfg : MgrConfig :=
        { startType := .automatic, displayName := config.Name,
          description := "由Windows服务管理器创建的服务: " ++ config.Name }
      if o.scmCreateOk then
        if createServiceWrapperOk o config.Args workingDir then
          if o.setImagePathOk then
            let record : Service :=
              { ID := serviceName, Name := config.Name, ExePath := config.ExePath,
                Args := config.Args, WorkingDir := workingDir, Status := "stopped",
                PID := 0, AutoStart := false, CreatedAt := now, UpdatedAt := now }
            { result := none, service := some record, usedConfig := some cfg,
              osServiceCreated := true, osServiceDeleted := false,
              registryAfter := setEntry registryMap serviceName record,
              scheduledStartDelayMs := some 1000 }
          else
            { result := some .imagePathFailed, service := none, usedConfig := some cfg,
              osServiceCreated := true, osServiceDeleted := true,
              registryAfter := registryMap, scheduledStartDelayMs := none }
        else
          { result := some .wrapperFailed, service := none, usedConfig := some cfg,
            osServiceCreated := true, osServiceDeleted := true,
            registryAfter := registryMap, scheduledStartDelayMs := none }
      else
        { result := some .scmCreateFailed, service := none, usedConfig := some cfg,
          osServiceCreated := false, osServiceDeleted := false,
          registryAfter := registryMap, scheduledStartDelayMs := none }
  else
    { result := some .exeNotFound, service := none, usedConfig := none,
      osServiceCreated := false, osServiceDeleted := false,
      registryAfter := registryMap, scheduledStartDelayMs := none }

/-- A control request arriving on the wrapper's channel
(`svc.ChangeRequest`); `interrogate` carries the `CurrentStatus` the OS
hands in, which the wrapper echoes back. -/
inductive SvcCmd where
  | stop
  | shutdown
  | interrogate (currentStatus : OsState)
  | other
deriving DecidableEq, Repr

/-- One iteration of the wrapper's select loop: either a control request
is received, or the default branch runs and observes whether the target
process is still running. -/
inductive LoopEvent where
  | recv (cmd : SvcCmd)
  | tick (targetRunning : Bool)
deriving DecidableEq, Repr

/-- The `for { select { ... } }` loop of `EmbeddedServiceWrapper.Execute`
over a trace of loop events.  Returns the OS status reports it sends and
`some (ssec, errno)` when it returns (`none` when the trace ends with the
loop still live).  `stop`/`shutdown`: report `stop-pending`, kill the
target, report `stopped`, return `(false, 0)`.  `interrogate`: echo the
current status.  Default branch with the target no longer running:
report `stopped`, return `(false, 0)`; otherwise sleep one second. -/
def wrapperLoop : List LoopEvent → List OsState × Option (Bool × Nat)
  | [] => ([], none)
  | .recv .stop :: _ => ([.stopPending, .stopped], some (false, 0))
  | .recv .shutdown :: _ => ([.stopPending, .stopped], some (false, 0))
  | .recv (.interrogate cur) :: rest =>
    let r := wrapperLoop rest
    (cur :: r.fst, r.snd)
  | .recv .other :: rest => wrapperLoop rest
  | .tick stillRunning :: rest =>
    if stillRunning then wrapperLoop rest else ([.stopped], some (false, 0))

/-- `EmbeddedServiceWrapper.Execute` from `wrapper.go`: report
`start-pending`; when spawning the target fails report `stopped` and
return `(false, 1)`; otherwise report `running` and enter the select
loop. -/
def EmbeddedServiceWrapper.Execute (spawnOk : Bool) (events : List LoopEvent) :
    List OsState × Option (Bool × Nat) :=
  if spawnOk then
    let r := wrapperLoop events
    (.startPending :: .running :: r.fst, r.snd)
  else ([.startPending, .stopped], some (false, 1))

/-- A stale record still showing `running`/pid 123 while the OS reports
the service stopped; used as a concrete input below. -/
def svcDemo : Service :=
  { ID := "WSM_demo_1700000000", Name := "demo", ExePath := "C:\\demo\\app.exe",
    Args := "", WorkingDir := "C:\\demo", Status := "running", PID := 123,
    AutoStart := false, CreatedAt := 0, UpdatedAt := 0 }

/-- Oracle for a start attempt whose wait loop only ever observes
`stopped`. -/
def osStartFails : OsServiceOracle :=
  { openOk := true, queryResult := some (.stopped, 0), startOk := true,
    controlOk := true, waitPolls := fun _ => some .stopped,
    finalQuery := (.stopped, 0) }

/-- Oracle for a service the OS already reports `running` (pid 77). -/
def osAlreadyRunning : OsServiceOracle :=
  { openOk := true, queryResult := some (.running, 77), startOk := true,
    controlOk := true, waitPolls := fun _ => some .running,
    finalQuery := (.running, 77) }

/-- Oracle for a service the OS already reports `stopped`. -/
def osAlreadyStopped : OsServiceOracle :=
  { openOk := true, queryResult := some (.stopped, 5), startOk := true,
    controlOk := true, waitPolls := fun _ => some .stopped,
    finalQuery := (.stopped, 5) }

/-- Concrete creation input with an empty working directory. -/
def cfgDemo : ServiceConfig :=
  { Name := "My App", ExePath := "C:\\tools\\app.exe", Args := "", WorkingDir := "" }

/-- All-calls-succeed creation oracle. -/
def oracleAllOk : CreateOracle :=
  { exeExists := true, scmCreateOk := true, currentExeOk := true,
    storeExePathOk := true, storeArgsOk := true, storeWorkingDirOk := true,
    setImagePathOk := true, setWorkDirOk := true }

/-- Creation oracle whose `ImagePath` registry write fails. -/
def oracleImagePathFails : CreateOracle :=
  { oracleAllOk with setImagePathOk := false }

/-- Looking a key up after insert-or-replace under that key finds the
new value. -/
theorem lookup_setEntry_self {α : Type} (l : List (String × α)) (k : String) (v : α) :
    (setEntry l k v).lookup k = some v := by
  induction l with
  | nil => simp [setEntry]
  | cons e rest ih =>
    obtain ⟨k0, v0⟩ := e
    by_cases h : k0 = k
    · simp [setEntry, h]
    · simp only [setEntry, if_neg h, List.lookup]
      have hbeq : (k == k0) = false := by
        simp [beq_eq_false_iff_ne]
        exact fun heq => h heq.symm
      simp [hbeq, ih]

/-- Claim C8: with the cache's fixed 5-second (5000 ms) time-to-live,
`Set` followed immediately by `Get` returns the stored status and pid;
`Get` misses when the key is absent or the entry's age exceeds the
time-to-live while leaving the expired entry in place; and `CleanExpired`
removes exactly the entries strictly older than the time-to-live. -/
theorem statusCache_spec (c : ServiceStatusCache) (id status : String)
    (pid now : Nat) (httl : c.ttl = 5000) :
    ((c.Set id status pid now).Get id now =
        some { Status := status, PID := pid, Timestamp := now })
  ∧ (c.cache.lookup id = none → c.Get id now = none)
  ∧ (∀ e, c.cache.lookup id = some e → now - e.Timestamp > 5000 →
      c.Get id now = none ∧ c.cache.lookup id = some e)
  ∧ (∀ k e, (k, e) ∈ (c.CleanExpired now).cache ↔
      ((k, e) ∈ c.cache ∧ now - e.Timestamp ≤ 5000)) := by
  refine ⟨?_, ?_, ?_, ?_⟩
  · simp [ServiceStatusCache.Set, ServiceStatusCache.Get, lookup_setEntry_self]
  · intro h
    simp [ServiceStatusCache.Get, h]
  · intro e he hexp
    refine ⟨?_, he⟩
    simp [ServiceStatusCache.Get, he, httl, hexp]
  · intro k e
    simp [ServiceStatusCache.CleanExpired, List.mem_filter, httl]

/-- Concrete instantiation of `statusCache_spec`: set-then-get hit on a
fresh cache, miss on an absent key, lazy-expiration miss that keeps the
entry, and `CleanExpired` keeping a fresh entry. -/
theorem statusCache_spec_witness :
    ((NewServiceStatusCache.Set "svc" "running" 123 1000).Get "svc" 1000 =
        some { Status := "running", PID := 123, Timestamp := 1000 })
  ∧ (NewServiceStatusCache.Get "svc" 1000 = none)
  ∧ ((NewServiceStatusCache.Set "old" "stopped" 0 0).Get "old" 6000 = none)
  ∧ (("old", { Status := "stopped", PID := 0, Timestamp := 0 }) ∈
      ((NewServiceStatusCache.Set "old" "stopped" 0 0).cache))
  ∧ (("fresh", { Status := "running", PID := 9, Timestamp := 5500 }) ∈
      (((NewServiceStatusCache.Set "old" "stopped" 0 0).Set "fresh" "running" 9 5500).CleanExpired 6000).cache) := by
  have h1 := statusCache_spec NewServiceStatusCache "svc" "running" 123 1000 rfl
  have h2 := statusCache_spec (NewServiceStatusCache.Set "old" "stopped" 0 0)
    "old" "x" 7 6000 rfl
  have h3 := statusCache_spec
    ((NewServiceStatusCache.Set "old" "stopped" 0 0).Set "fresh" "running" 9 5500)
    "fresh" "y" 8 6000 rfl
  refine ⟨h1.1, h1.2.1 rfl, ?_, ?_, ?_⟩
  · exact (h2.2.2.1 { Status := "stopped", PID := 0, Timestamp := 0 } rfl (by decide)).1
  · have hl := (h2.2.2.1 { Status := "stopped", PID := 0, Timestamp := 0 } rfl (by decide)).2
    revert hl
    decide
  · exact (h3.2.2.2 "fresh" { Status := "running", PID := 9, Timestamp := 5500 }).2
      ⟨by decide, by decide⟩

/-- Claim C4: on a cache miss with a successful open and query, the
status query maps the OS state to the manager's vocabulary:
`running ↦ ("running", pid)`, `stopped ↦ ("stopped", 0)`,
`start-pending ↦ ("starting", 0)`, `stop-pending ↦ ("stopping", pid)`,
and every other state to `("error", 0)`. -/
theorem getServiceRealTimeStatus_mapping (c : ServiceStatusCache)
    (name : String) (now processId : Nat) (hmiss : c.Get name now = none) :
    ((getServiceRealTimeStatus c name now true (some (.running, processId))).fst =
        ("running", processId))
  ∧ ((getServiceRealTimeStatus c name now true (some (.stopped, processId))).fst =
        ("stopped", 0))
  ∧ ((getServiceRealTimeStatus c name now true (some (.startPending, processId))).fst =
        ("starting", 0))
  ∧ ((getServiceRealTimeStatus c name now true (some (.stopPending, processId))).fst =
        ("stopping", processId))
  ∧ (∀ st : OsState, st ≠ .running → st ≠ .stopped → st ≠ .startPending →
      st ≠ .stopPending →
      (getServiceRealTimeStatus c name now true (some (st, processId))).fst =
        ("error", 0)) := by
  refine ⟨?_, ?_, ?_, ?_, ?_⟩
  · simp [getServiceRealTimeStatus, hmiss, statusFromOsState]
  · simp [getServiceRealTimeStatus, hmiss, statusFromOsState]
  · simp [getServiceRealTimeStatus, hmiss, statusFromOsState]
  · simp [getServiceRealTimeStatus, hmiss, statusFromOsState]
  · intro st h1 h2 h3 h4
    cases st <;> simp_all [getServiceRealTimeStatus, statusFromOsState]

/-- Concrete instantiation of `getServiceRealTimeStatus_mapping` on a
fresh cache with pid 321; the `paused` state exercises the default
branch. -/
theorem getServiceRealTimeStatus_mapping_witness :
    ((getServiceRealTimeStatus NewServiceStatusCache "svc" 0 true
        (some (.running, 321))).fst = ("running", 321))
  ∧ ((getServiceRealTimeStatus NewServiceStatusCache "svc" 0 true
        (some (.stopPending, 321))).fst = ("stopping", 321))
  ∧ ((getServiceRealTimeStatus NewServiceStatusCache "svc" 0 true
        (some (.paused, 321))).fst = ("error", 0)) := by
  have h := getServiceRealTimeStatus_mapping NewServiceStatusCache "svc" 0 321 rfl
  exact ⟨h.1, h.2.2.2.1, h.2.2.2.2 .paused (by decide) (by decide) (by decide) (by decide)⟩

/-- The registered records survive a full status refresh: `GetServices`
returns one record per input record, with the same identifiers. -/
theorem GetServices_preserves_ids (services : List Service)
    (oracle : String → Bool × Option (OsState × Nat))
    (c : ServiceStatusCache) (now : Nat) :
    (GetServices services oracle c now).fst.map Service.ID =
      services.map Service.ID := by
  induction services generalizing c with
  | nil => simp [GetServices]
  | cons service rest ih => simp [GetServices, ih]

/-- Claim C9: when the OS status query fails for a registered service
(open fails, or the state query fails), `getServiceRealTimeStatus`
returns `("error", 0)` instead of an error, and a refresh keeps every
registry entry (same identifiers, none removed). -/
theorem statusQueryFailure_spec (c : ServiceStatusCache) (name : String)
    (now : Nat) (q : Option (OsState × Nat)) (hmiss : c.Get name now = none) :
    ((getServiceRealTimeStatus c name now false q).fst = ("error", 0))
  ∧ ((getServiceRealTimeStatus c name now true none).fst = ("error", 0))
  ∧ (∀ (services : List Service) (oracle : String → Bool × Option (OsState × Nat))
      (c2 : ServiceStatusCache) (now2 : Nat),
      (GetServices services oracle c2 now2).fst.map Service.ID =
        services.map Service.ID) := by
  refine ⟨?_, ?_, ?_⟩
  · simp [getServiceRealTimeStatus, hmiss]
  · simp [getServiceRealTimeStatus, hmiss]
  · intro services oracle c2 now2
    exact GetServices_preserves_ids services oracle c2 now2

/-- Concrete instantiation of `statusQueryFailure_spec`: a failed open
and a failed query both report `("error", 0)`, and a refresh of a
one-record registry (whose OS query fails) keeps the record's id. -/
theorem statusQueryFailure_spec_witness :
    ((getServiceRealTimeStatus NewServiceStatusCache "gone" 0 false none).fst =
        ("error", 0))
  ∧ ((getServiceRealTimeStatus NewServiceStatusCache "gone" 0 true none).fst =
        ("error", 0))
  ∧ ((GetServices [svcDemo] (fun _ => (false, none)) NewServiceStatusCache 9).fst.map
        Service.ID = [svcDemo].map Service.ID) := by
  have h := statusQueryFailure_spec NewServiceStatusCache "gone" 0 none rfl
  exact ⟨h.1, h.2.1, h.2.2 [svcDemo] (fun _ => (false, none)) NewServiceStatusCache 9⟩

/-- The polling loop only inspects the state oracle on the 500 ms grid:
two oracles that agree at the next `fuel` poll instants give the same
result. -/
theorem waitFrom_congr (target : OsState) (polls1 polls2 : Nat → Option OsState) :
    ∀ fuel elapsed, (∀ k, k < fuel → polls1 (elapsed + 500 * k) = polls2 (elapsed + 500 * k)) →
      waitFrom target polls1 elapsed fuel = waitFrom target polls2 elapsed fuel := by
  intro fuel
  induction fuel with
  | zero => intro elapsed _; rfl
  | succ n ih =>
    intro elapsed h
    have h0 : polls1 elapsed = polls2 elapsed := by
      have := h 0 (Nat.succ_pos n)
      simpa using this
    have hrest : ∀ k, k < n →
        polls1 (elapsed + 500 + 500 * k) = polls2 (elapsed + 500 + 500 * k) := by
      intro k hk
      have := h (k + 1) (by omega)
      have harith : elapsed + 500 * (k + 1) = elapsed + 500 + 500 * k := by ring
      rwa [harith] at this
    rw [waitFrom, waitFrom, h0]
    cases polls2 elapsed with
    | none => rfl
    | some st =>
      by_cases h1 : st = target
      · simp [h1]
      · by_cases h2 : target = .running ∧ st = .stopped
        · simp [h1, h2]
        · simp only [h1, h2, if_false]
          exact ih (elapsed + 500) hrest

/-- While waiting for `running`, a query result that never errs and never
shows `running` but eventually shows `stopped` within the polling window
makes the loop fail with the distinct start-failure outcome. -/
theorem waitFrom_startFailed (polls : Nat → Option OsState)
    (hok : ∀ t, polls t ≠ some .running ∧ polls t ≠ none) :
    ∀ fuel k elapsed, k < fuel → polls (elapsed + 500 * k) = some .stopped →
      waitFrom .running polls elapsed fuel = .startFailed := by
  intro fuel
  induction fuel with
  | zero => intro k elapsed hk; omega
  | succ n ih =>
    intro k elapsed hk hstop
    obtain ⟨hnr, hnn⟩ := hok elapsed
    rw [waitFrom]
    cases hp : polls elapsed with
    | none => exact absurd hp hnn
    | some st =>
      have hst : st ≠ .running := by
        intro hcon
        exact hnr (hcon ▸ hp)
      by_cases hstop0 : st = .stopped
      · simp [hst, hstop0]
      · simp only [hst, if_false, hstop0, and_false, if_neg]
        have hk0 : k ≠ 0 := by
          intro hcon
          rw [hcon] at hstop
          simp at hstop
          rw [hp] at hstop
          exact hstop0 (by injection hstop)
        obtain ⟨k1, rfl⟩ := Nat.exists_eq_succ_of_ne_zero hk0
        have harith : elapsed + 500 * (k1 + 1) = elapsed + 500 + 500 * k1 := by ring
        rw [harith] at hstop
        exact ih k1 (elapsed + 500) (by omega) hstop

/-- When every successful query reports a state that is neither the
target nor (for a `running` target) `stopped`, and queries never err, the
loop exhausts its polling window and times out. -/
theorem waitFrom_timeout (target : OsState) (polls : Nat → Option OsState)
    (h : ∀ t, ∃ st, polls t = some st ∧ st ≠ target ∧
        ¬(target = .running ∧ st = .stopped)) :
    ∀ fuel elapsed, waitFrom target polls elapsed fuel = .timedOut := by
  intro fuel
  induction fuel with
  | zero => intro elapsed; rfl
  | succ n ih =>
    intro elapsed
    obtain ⟨st, hp, hne, hns⟩ := h elapsed
    rw [waitFrom, hp]
    simp only [hne, if_false, hns, if_neg, not_false_iff]
    exact ih (elapsed + 500)

/-- Claim C3: `waitForServiceState` with the manager's 30-second timeout
polls the OS state only at the 500 ms instants `0, 500, …, 29500` (two
oracles agreeing there give the same result, and a first poll already at
the target returns success); while waiting for `running`, an observed
`stopped` within the window yields the distinct start-failure result
rather than the timeout; and when the target state (and, for `running`,
`stopped`) is never observed, the deadline expires with the timeout
result. -/
theorem waitForServiceState_spec (target : OsState)
    (polls polls1 polls2 : Nat → Option OsState) :
    ((∀ k, k < 60 → polls1 (500 * k) = polls2 (500 * k)) →
      waitForServiceState target polls1 30000 = waitForServiceState target polls2 30000)
  ∧ (polls 0 = some target → waitForServiceState target polls 30000 = .ok)
  ∧ ((∀ t, polls t ≠ some .running ∧ polls t ≠ none) →
      (∃ k, k < 60 ∧ polls (500 * k) = some .stopped) →
      waitForServiceState .running polls 30000 = .startFailed)
  ∧ ((∀ t, ∃ st, polls t = some st ∧ st ≠ target ∧
        ¬(target = .running ∧ st = .stopped)) →
      waitForServiceState target polls 30000 = .timedOut) := by
  have hfuel : (30000 + 499) / 500 = 60 := by norm_num
  refine ⟨?_, ?_, ?_, ?_⟩
  · intro hgrid
    unfold waitForServiceState
    rw [hfuel]
    refine waitFrom_congr target polls1 polls2 60 0 ?_
    intro k hk
    simpa using hgrid k hk
  · intro h0
    unfold waitForServiceState
    rw [hfuel]
    rw [waitFrom, h0]
    simp
  · intro hok hex
    obtain ⟨k, hk, hstop⟩ := hex
    unfold waitForServiceState
    rw [hfuel]
    refine waitFrom_startFailed polls hok 60 k 0 hk ?_
    simpa using hstop
  · intro h
    unfold waitForServiceState
    rw [hfuel]
    exact waitFrom_timeout target polls h 60 0

/-- Concrete instantiation of `waitForServiceState_spec`: two oracles
differing only off the 500 ms grid agree; an immediate `running` poll
succeeds; an oracle stuck on `stopped` gives the start-failure result;
an oracle stuck on `start-pending` times out. -/
theorem waitForServiceState_spec_witness :
    (waitForServiceState .running (fun _ => some .startPending) 30000 =
      waitForServiceState .running
        (fun t => if t % 500 = 0 then some .startPending else some .running) 30000)
  ∧ (waitForServiceState .running (fun _ => some .running) 30000 = .ok)
  ∧ (waitForServiceState .running (fun _ => some .stopped) 30000 = .startFailed)
  ∧ (waitForServiceState .running (fun _ => some .startPending) 30000 = .timedOut) := by
  refine ⟨?_, ?_, ?_, ?_⟩
  · refine (waitForServiceState_spec .running (fun _ => some .startPending)
      (fun _ => some .startPending)
      (fun t => if t % 500 = 0 then some .startPending else some .running)).1 ?_
    intro k hk
    simp [Nat.mul_mod_right]
  · exact (waitForServiceState_spec .running (fun _ => some .running)
      (fun _ => some .running) (fun _ => some .running)).2.1 rfl
  · refine (waitForServiceState_spec .running (fun _ => some .stopped)
      (fun _ => some .stopped) (fun _ => some .stopped)).2.2.1 ?_ ?_
    · intro t
      exact ⟨by simp, by simp⟩
    · exact ⟨0, by omega, rfl⟩
  · refine (waitForServiceState_spec .running (fun _ => some .startPending)
      (fun _ => some .startPending) (fun _ => some .startPending)).2.2.2 ?_
    intro t
    exact ⟨.startPending, rfl, by simp, by simp⟩

/-- While the target keeps running and no control arrives, the select
loop emits nothing; the first `stop`/`shutdown` control produces exactly
`stop-pending, stopped` and the clean `(false, 0)` return. -/
theorem wrapperLoop_stop (pre rest : List LoopEvent) (cmd : SvcCmd)
    (hpre : ∀ e ∈ pre, e = LoopEvent.tick true)
    (hcmd : cmd = SvcCmd.stop ∨ cmd = SvcCmd.shutdown) :
    wrapperLoop (pre ++ LoopEvent.recv cmd :: rest) =
      ([.stopPending, .stopped], some (false, 0)) := by
  induction pre with
  | nil =>
    rcases hcmd with h | h <;> simp [h, wrapperLoop]
  | cons e pre ih =>
    have he : e = LoopEvent.tick true := hpre e (List.mem_cons_self e pre)
    have hpre2 : ∀ e2 ∈ pre, e2 = LoopEvent.tick true :=
      fun e2 h2 => hpre e2 (List.mem_cons_of_mem e h2)
    rw [he]
    simpa [wrapperLoop] using ih hpre2

/-- Claim C2: with a valid target configuration, `Execute` reports
exactly `start-pending, running`, and on a stop or shutdown control
request `stop-pending, stopped`, returning exit code 0; when spawning
the target fails it reports exactly `start-pending, stopped` and returns
the non-zero exit code 1. -/
theorem wrapperExecute_spec (pre rest events : List LoopEvent) (cmd : SvcCmd)
    (hpre : ∀ e ∈ pre, e = LoopEvent.tick true)
    (hcmd : cmd = SvcCmd.stop ∨ cmd = SvcCmd.shutdown) :
    (EmbeddedServiceWrapper.Execute true (pre ++ LoopEvent.recv cmd :: rest) =
      ([.startPending, .running, .stopPending, .stopped], some (false, 0)))
  ∧ (EmbeddedServiceWrapper.Execute false events =
      ([.startPending, .stopped], some (false, 1))) := by
  constructor
  · unfold EmbeddedServiceWrapper.Execute
    rw [wrapperLoop_stop pre rest cmd hpre hcmd]
    rfl
  · rfl

/-- Concrete instantiation of `wrapperExecute_spec`: two idle loop
iterations with the target alive, then a stop control; and a failed
spawn. -/
theorem wrapperExecute_spec_witness :
    (EmbeddedServiceWrapper.Execute true
      ([LoopEvent.tick true, LoopEvent.tick true] ++ LoopEvent.recv SvcCmd.stop :: []) =
      ([.startPending, .running, .stopPending, .stopped], some (false, 0)))
  ∧ (EmbeddedServiceWrapper.Execute false [] =
      ([.startPending, .stopped], some (false, 1))) := by
  have h := wrapperExecute_spec [LoopEvent.tick true, LoopEvent.tick true] []
    [] SvcCmd.stop (by decide) (Or.inl rfl)
  exact ⟨h.1, h.2⟩

/-- Claim C5: `StopService` on a service whose OS state is already
`stopped` succeeds without sending a stop control; the record changes
only by the idempotent refresh `Status := "stopped"`, `PID := 0`,
`UpdatedAt := now`, and the cache is untouched. -/
theorem StopService_noop (service : Service) (os : OsServiceOracle)
    (c : ServiceStatusCache) (now qpid : Nat)
    (hopen : os.openOk = true) (hq : os.queryResult = some (.stopped, qpid)) :
    ((StopService service os c now).result = none)
  ∧ ((StopService service os c now).controlSent = false)
  ∧ ((StopService service os c now).record =
      { service with Status := "stopped", PID := 0, UpdatedAt := now })
  ∧ ((StopService service os c now).cacheOut = c) := by
  simp [StopService, hopen, hq]

/-- Concrete instantiation of `StopService_noop` on the stale `running`
record and an already-stopped OS view. -/
theorem StopService_noop_witness :
    ((StopService svcDemo osAlreadyStopped NewServiceStatusCache 42).result = none)
  ∧ ((StopService svcDemo osAlreadyStopped NewServiceStatusCache 42).controlSent = false)
  ∧ ((StopService svcDemo osAlreadyStopped NewServiceStatusCache 42).record =
      { svcDemo with Status := "stopped", PID := 0, UpdatedAt := 42 })
  ∧ ((StopService svcDemo osAlreadyStopped NewServiceStatusCache 42).cacheOut =
      NewServiceStatusCache) :=
  StopService_noop svcDemo osAlreadyStopped NewServiceStatusCache 42 5 rfl rfl

/-- Claim C6: `StartService` on a service whose OS state is already
`running` fails with the already-running error before issuing any start
request, leaving the record and the cache unchanged. -/
theorem StartService_alreadyRunning (service : Service) (os : OsServiceOracle)
    (c : ServiceStatusCache) (now qpid : Nat)
    (hopen : os.openOk = true) (hq : os.queryResult = some (.running, qpid)) :
    ((StartService service os c now).result = some .alreadyRunning)
  ∧ ((StartService service os c now).startIssued = false)
  ∧ ((StartService service os c now).record = service)
  ∧ ((StartService service os c now).cacheOut = c)
  ∧ ((StartService service os c now).emitted = []) := by
  simp [StartService, hopen, hq]

/-- Concrete instantiation of `StartService_alreadyRunning`. -/
theorem StartService_alreadyRunning_witness :
    ((StartService svcDemo osAlreadyRunning NewServiceStatusCache 42).result =
      some .alreadyRunning)
  ∧ ((StartService svcDemo osAlreadyRunning NewServiceStatusCache 42).startIssued = false)
  ∧ ((StartService svcDemo osAlreadyRunning NewServiceStatusCache 42).record = svcDemo)
  ∧ ((StartService svcDemo osAlreadyRunning NewServiceStatusCache 42).cacheOut =
      NewServiceStatusCache)
  ∧ ((StartService svcDemo osAlreadyRunning NewServiceStatusCache 42).emitted = []) :=
  StartService_alreadyRunning svcDemo osAlreadyRunning NewServiceStatusCache 42 77 rfl rfl

/-- Claim C7: when the OS service entry is created but a later creation
step fails (the wrapper-configuration write or the image-path write),
`CreateService` deletes the just-created OS entry before returning the
error, and the in-memory registry is left untouched. -/
theorem CreateService_rollback (registryMap : List (String × Service))
    (config : ServiceConfig) (o : CreateOracle) (now unixTime : Nat)
    (hexe : o.exeExists = true)
    (hfresh : registryMap.lookup (generateServiceName config.Name unixTime) = none)
    (hscm : o.scmCreateOk = true)
    (hfail : createServiceWrapperOk o config.Args (resolveWorkingDir config) = false ∨
      o.setImagePathOk = false) :
    ((CreateService registryMap config o now unixTime).result.isSome = true)
  ∧ ((CreateService registryMap config o now unixTime).osServiceCreated = true)
  ∧ ((CreateService registryMap config o now unixTime).osServiceDeleted = true)
  ∧ ((CreateService registryMap config o now unixTime).registryAfter = registryMap)
  ∧ ((CreateService registryMap config o now unixTime).service = none) := by
  rcases hfail with h | h
  · simp [CreateService, hexe, hfresh, hscm, h]
  · by_cases hw : createServiceWrapperOk o config.Args (resolveWorkingDir config) = true
    · simp [CreateService, hexe, hfresh, hscm, hw, h]
    · simp only [Bool.not_eq_true] at hw
      simp [CreateService, hexe, hfresh, hscm, hw]

/-- Concrete instantiation of `CreateService_rollback`: the image-path
registry write fails after the OS entry was created. -/
theorem CreateService_rollback_witness :
    ((CreateService [] cfgDemo oracleImagePathFails 7 5).result.isSome = true)
  ∧ ((CreateService [] cfgDemo oracleImagePathFails 7 5).osServiceCreated = true)
  ∧ ((CreateService [] cfgDemo oracleImagePathFails 7 5).osServiceDeleted = true)
  ∧ ((CreateService [] cfgDemo oracleImagePathFails 7 5).registryAfter = [])
  ∧ ((CreateService [] cfgDemo oracleImagePathFails 7 5).service = none) :=
  CreateService_rollback [] cfgDemo oracleImagePathFails 7 5 rfl rfl rfl (Or.inr rfl)

/-- Claim C10: a successful `CreateService` returns a record with
`AutoStart = false` (and status `stopped`, pid 0), even though the OS
entry was registered with the automatic start type and an automatic
start was scheduled as a detached background task 1000 ms (about one
second) later. -/
theorem CreateService_autoStart (registryMap : List (String × Service))
    (config : ServiceConfig) (o : CreateOracle) (now unixTime : Nat)
    (hexe : o.exeExists = true)
    (hfresh : registryMap.lookup (generateServiceName config.Name unixTime) = none)
    (hscm : o.scmCreateOk = true)
    (hwrap : createServiceWrapperOk o config.Args (resolveWorkingDir config) = true)
    (himg : o.setImagePathOk = true) :
    ((CreateService registryMap config o now unixTime).service =
      some { ID := generateServiceName config.Name unixTime, Name := config.Name,
             ExePath := config.ExePath, Args := config.Args,
             WorkingDir := resolveWorkingDir config, Status := "stopped", PID := 0,
             AutoStart := false, CreatedAt := now, UpdatedAt := now })
  ∧ ((CreateService registryMap config o now unixTime).usedConfig =
      some { startType := .automatic, displayName := config.Name,
             description := "由Windows服务管理器创建的服务: " ++ config.Name })
  ∧ ((CreateService registryMap config o now unixTime).scheduledStartDelayMs =
      some 1000) := by
  simp [CreateService, hexe, hfresh, hscm, hwrap, himg]

/-- Concrete instantiation of `CreateService_autoStart`: a fully
successful creation of `cfgDemo` at Unix time 5. -/
theorem CreateService_autoStart_witness :
    ((CreateService [] cfgDemo oracleAllOk 7 5).service =
      some { ID := generateServiceName cfgDemo.Name 5, Name := cfgDemo.Name,
             ExePath := cfgDemo.ExePath, Args := cfgDemo.Args,
             WorkingDir := resolveWorkingDir cfgDemo, Status := "stopped", PID := 0,
             AutoStart := false, CreatedAt := 7, UpdatedAt := 7 })
  ∧ ((CreateService [] cfgDemo oracleAllOk 7 5).usedConfig =
      some { startType := .automatic, displayName := cfgDemo.Name,
             description := "由Windows服务管理器创建的服务: " ++ cfgDemo.Name })
  ∧ ((CreateService [] cfgDemo oracleAllOk 7 5).scheduledStartDelayMs = some 1000) :=
  CreateService_autoStart [] cfgDemo oracleAllOk 7 5 rfl rfl rfl rfl rfl

/-- Counterexample to claim C1 at a concrete input: starting the stale
record `svcDemo` (status `running`, pid 123) against an OS whose wait
polls only ever observe `stopped` makes `StartService` transition the
record's status to `"error"` while leaving its `PID` field at 123 — the
source's wait-failure path assigns only `Status` and `UpdatedAt`. -/
theorem pid_reset_cex :
    (svcDemo.Status = "running")
  ∧ ((StartService svcDemo osStartFails NewServiceStatusCache 5000).record.Status =
      "error")
  ∧ ((StartService svcDemo osStartFails NewServiceStatusCache 5000).record.PID = 123)
  ∧ ((StartService svcDemo osStartFails NewServiceStatusCache 5000).record.PID ≠ 0) := by
  refine ⟨rfl, rfl, rfl, ?_⟩
  decide

/-- Claim C1 (amended): whenever `StopService` succeeds it leaves the
record at status `"stopped"` with `PID = 0`, and a cache-miss status
refresh reporting `"stopped"` or `"error"` always carries pid 0; however
`StartService`'s wait-failure path sets the record's status to `"error"`
without resetting the `PID` field (it assigns only `Status` and
`UpdatedAt`). -/
theorem pid_reset_amended (service : Service) (os : OsServiceOracle)
    (c : ServiceStatusCache) (now : Nat) :
    ((StopService service os c now).result = none →
      ((StopService service os c now).record.Status = "stopped" ∧
       (StopService service os c now).record.PID = 0))
  ∧ (∀ (name : String) (openOk : Bool) (q : Option (OsState × Nat)),
      c.Get name now = none →
      ((getServiceRealTimeStatus c name now openOk q).fst.fst = "stopped" ∨
       (getServiceRealTimeStatus c name now openOk q).fst.fst = "error") →
      (getServiceRealTimeStatus c name now openOk q).fst.snd = 0)
  ∧ (∀ (st : OsState) (qpid : Nat), os.openOk = true →
      os.queryResult = some (st, qpid) → st ≠ .running → os.startOk = true →
      waitForServiceState .running os.waitPolls 30000 ≠ .ok →
      (StartService service os c now).record =
        { service with Status := "error", UpdatedAt := now }) := by
  refine ⟨?_, ?_, ?_⟩
  · intro h
    by_cases ho : os.openOk
    · cases hq : os.queryResult with
      | none => simp [StopService, ho, hq] at h
      | some p =>
        obtain ⟨st, qp⟩ := p
        by_cases hst : st = .stopped
        · simp [StopService, ho, hq, hst]
        · by_cases hc : os.controlOk
          · cases hw : waitForServiceState .stopped os.waitPolls 30000 with
            | ok => simp [StopService, ho, hq, hst, hc, hw]
            | queryFailed => simp [StopService, ho, hq, hst, hc, hw] at h
            | startFailed => simp [StopService, ho, hq, hst, hc, hw] at h
            | timedOut => simp [StopService, ho, hq, hst, hc, hw] at h
          · simp [StopService, ho, hq, hst, hc] at h
    · simp [StopService, ho] at h
  · intro name openOk q hmiss hor
    cases openOk with
    | false => simp [getServiceRealTimeStatus, hmiss]
    | true =>
      cases q with
      | none => simp [getServiceRealTimeStatus, hmiss]
      | some p =>
        obtain ⟨st, qp⟩ := p
        cases st <;> simp_all [getServiceRealTimeStatus, statusFromOsState]
  · intro st qpid ho hq hst hstart hwait
    cases hw : waitForServiceState .running os.waitPolls 30000 with
    | ok => exact absurd hw hwait
    | queryFailed => simp [StartService, ho, hq, hst, hstart, hw]
    | startFailed => simp [StartService, ho, hq, hst, hstart, hw]
    | timedOut => simp [StartService, ho, hq, hst, hstart, hw]

/-- Concrete instantiation of `pid_reset_amended`: a successful no-op
stop resets the pid; a failed status query reports pid 0; and the
concrete failed start keeps the stale record pid while flipping the
status to `"error"`. -/
theorem pid_reset_amended_witness :
    ((StopService svcDemo osAlreadyStopped NewServiceStatusCache 9).record.Status =
        "stopped" ∧
     (StopService svcDemo osAlreadyStopped NewServiceStatusCache 9).record.PID = 0)
  ∧ ((getServiceRealTimeStatus NewServiceStatusCache "gone" 9 false none).fst.snd = 0)
  ∧ ((StartService svcDemo osStartFails NewServiceStatusCache 9).record =
      { svcDemo with Status := "error", UpdatedAt := 9 }) := by
  have h1 := pid_reset_amended svcDemo osAlreadyStopped NewServiceStatusCache 9
  have h2 := pid_reset_amended svcDemo osStartFails NewServiceStatusCache 9
  refine ⟨h1.1 rfl, h2.2.1 "gone" false none rfl (Or.inr rfl), ?_⟩
  exact h2.2.2 .stopped 0 rfl rfl (by decide) rfl (by decide)
